import Mathlib

/-
  Verification development for the OneThingAI pilot client SDK.

  The embedding below translates the Python sources into Lean:
  - `makeRequestAux` / `makeRequest` model `OneThingAIInstance._make_request`
    (instances/instance_manager.py): a while-loop over attempts that retries
    on timeout and on HTTP status at least 500, sleeping
    `retry_delay * attempt` between attempts, and re-raises otherwise.
    The model returns the outcome together with the number of HTTP calls
    performed and the list of sleep durations, so that retry counts and
    backoff delays are observable.
  - `pyOrInt` models the Python `x or default` truthiness combination used
    for the per-call `timeout` and `max_retries` overrides.
  - `handleEnvelope`, `createOp`, `getWalletConsume` model the per-operation
    wrappers: envelope code check, wrapping of any exception text into
    a message of the form `Failed to <op>: <cause>`, and for
    `get_wallet_consume` the keyword-argument binding of its call to
    `_make_request` (which passes `params=`, not an accepted keyword).
  - `toCamel` models `CamelCaseModel.dict` key conversion
    (split on underscore, title-case every word but the first).
  - `InstanceStatus.fromInt` and friends model the pydantic enum validators
    of onethingai_pilot/instances/models.py; `legacyInstanceItemStatus`
    models the plain `status: int` field of src/instances/models.py.
  - `shouldScaleUp` / `shouldScaleDown` model AutoscalingPolicy
    (scaling_policy/scaling_policy.py) with the ambient `time.time()`
    made an explicit parameter and the mutable fields threaded as state.

  Numeric fields that are Python floats are modelled as rationals; machine
  timestamps and wire integers as `Int`.
-/

/-- JSON-like wire value carried in envelope data and request bodies. -/
inductive JValue where
  | jint (n : Int)
  | jnum (q : ℚ)
  | jstr (s : String)
  | jlist (xs : List JValue)
  | jobj (fields : List (String × JValue))

/-- The `APIResponse` envelope `code / msg / data` of models.py. -/
structure Envelope where
  code : Int
  msg : String
  data : Option JValue

/-- What a single HTTP attempt inside `_make_request` can do:
return a parsed envelope, raise `requests.exceptions.Timeout`, raise
`HTTPError` with a status (from `raise_for_status`), or raise another
(non-HTTP) exception. -/
inductive Outcome where
  | success (env : Envelope)
  | timeout
  | httpError (status : Nat)
  | otherException

/-- The exception that `_make_request` lets escape to its caller. -/
inductive PyError where
  | timeoutRaised
  | httpRaised (status : Nat)
  | otherRaised
deriving DecidableEq

/-- Result of `_make_request`: a returned envelope, the implicit `None`
when the while-loop runs zero iterations, or a raised exception. -/
inductive ReqResult where
  | envelope (env : Envelope)
  | noneReturned
  | raised (e : PyError)

/-- The retry loop of `_make_request`.  `fuel` is `retries - attempt`, so
`fuel = 0` is exactly the loop condition `attempt < retries` failing.
Returns the result, the number of HTTP calls made, and the sleeps
performed (in order).  On timeout or HTTP status at least 500 the code
increments `attempt`, re-raises when `attempt == retries`, and otherwise
sleeps `retry_delay * attempt` and loops; every other exception is
re-raised at once. -/
def makeRequestAux (delay : ℚ) (retries : Nat) (outcomes : Nat → Outcome) :
    Nat → Nat → ReqResult × Nat × List ℚ
  | 0, _ => (ReqResult.noneReturned, 0, [])
  | fuel + 1, attempt =>
    match outcomes attempt with
    | Outcome.success env => (ReqResult.envelope env, 1, [])
    | Outcome.timeout =>
      if attempt + 1 = retries then
        (ReqResult.raised PyError.timeoutRaised, 1, [])
      else
        let r := makeRequestAux delay retries outcomes fuel (attempt + 1)
        (r.1, r.2.1 + 1, delay * ((attempt + 1 : Nat) : ℚ) :: r.2.2)
    | Outcome.httpError st =>
      if 500 ≤ st then
        if attempt + 1 = retries then
          (ReqResult.raised (PyError.httpRaised st), 1, [])
        else
          let r := makeRequestAux delay retries outcomes fuel (attempt + 1)
          (r.1, r.2.1 + 1, delay * ((attempt + 1 : Nat) : ℚ) :: r.2.2)
      else (ReqResult.raised (PyError.httpRaised st), 1, [])
    | Outcome.otherException => (ReqResult.raised PyError.otherRaised, 1, [])

/-- `_make_request` with an already-resolved retry limit, starting at
`attempt = 0`. -/
def makeRequest (delay : ℚ) (retries : Nat) (outcomes : Nat → Outcome) :
    ReqResult × Nat × List ℚ :=
  makeRequestAux delay retries outcomes retries 0

/-- Python `override or default` on integers: `None` and `0` are falsy,
every other integer is used as given. -/
def pyOrInt : Option Int → Int → Int
  | none, d => d
  | some v, d => if v = 0 then d else v

/-- Constructor defaults of `OneThingAIInstance.__init__`. -/
structure ClientConfig where
  maxRetries : Int := 3
  timeout : Int := 10
  retryDelay : ℚ := 1

/-- `_make_request` including the resolution of the per-call `timeout` and
`max_retries` overrides by Python truthiness.  The first component is the
effective timeout handed to every HTTP call. -/
def makeRequestFull (cfg : ClientConfig) (timeoutOv retriesOv : Option Int)
    (outcomes : Nat → Outcome) : Int × (ReqResult × Nat × List ℚ) :=
  (pyOrInt timeoutOv cfg.timeout,
   makeRequest cfg.retryDelay (pyOrInt retriesOv cfg.maxRetries).toNat outcomes)

/-- An outcome on which `_make_request` retries: a timeout or an HTTP
server-error status. -/
def Retryable (o : Outcome) : Prop :=
  o = Outcome.timeout ∨ ∃ st, 500 ≤ st ∧ o = Outcome.httpError st

/-- The exception `_make_request` raises when retries are exhausted on the
given final outcome. -/
def raiseOf : Outcome → PyError
  | Outcome.timeout => PyError.timeoutRaised
  | Outcome.httpError st => PyError.httpRaised st
  | Outcome.success _ => PyError.otherRaised
  | Outcome.otherException => PyError.otherRaised

/-- Message of the per-operation wrapper `Failed to <op>: <cause>`. -/
def failMsg (label cause : String) : String :=
  "Failed to " ++ (label ++ (": " ++ cause))

/-- Rendering of a transport exception by `str(e)` in the wrappers. -/
def pyErrorMessage : PyError → String
  | PyError.timeoutRaised => "Request timed out"
  | PyError.httpRaised st => "HTTP error " ++ toString st
  | PyError.otherRaised => "Request exception"

/-- Field access during response deserialization: with
`populate_by_name = True` a field is populated from its wire alias or,
failing that, from its own name; a key missing under both is a
validation failure. -/
def getField (fields : List (String × JValue)) (aliasKey nameKey : String) :
    Except String JValue :=
  match fields.lookup aliasKey with
  | some v => Except.ok v
  | none =>
    match fields.lookup nameKey with
    | some v => Except.ok v
    | none => Except.error ("field required: " ++ nameKey)

/-- A `str` field accepts exactly a wire string. -/
def asStr : JValue → Except String String
  | JValue.jstr s => Except.ok s
  | _ => Except.error "value is not a valid string"

/-- An `int` field accepts exactly a wire integer. -/
def asInt : JValue → Except String Int
  | JValue.jint n => Except.ok n
  | _ => Except.error "value is not a valid integer"

/-- A `float` field accepts a wire number, coercing integers. -/
def asQ : JValue → Except String ℚ
  | JValue.jnum q => Except.ok q
  | JValue.jint n => Except.ok (n : ℚ)
  | _ => Except.error "value is not a valid number"

/-- Element-wise fallible deserialization of a wire list. -/
def parseList {α β : Type} (f : α → Except String β) :
    List α → Except String (List β)
  | [] => Except.ok []
  | x :: xs => do
    let v ← f x
    let vs ← parseList f xs
    Except.ok (v :: vs)

/-- `InstanceCreateResponse` of models.py: `app_id` aliased `appId`,
`group_id` aliased `groupId`. -/
structure InstanceCreateResponse where
  app_id : String
  group_id : String
deriving DecidableEq

/-- Deserialize `InstanceCreateResponse` from envelope data. -/
def parseInstanceCreateResponse (fields : List (String × JValue)) :
    Except String InstanceCreateResponse :=
  do
    let a ← asStr (← getField fields "appId" "app_id")
    let g ← asStr (← getField fields "groupId" "group_id")
    Except.ok { app_id := a, group_id := g }

/-- `WalletConsume` of src/instances/models.py, one consumption record
(the `datetime` field is modelled as epoch seconds). -/
structure WalletConsume where
  order_id : String
  date : Int
  app_id : String
  consum_cash : ℚ
  voucher_deduct_cash : ℚ
  actual_pay_cash : ℚ
  business_type : Int
  bill_type : Int
  runtime : Int
  event : String
  total_discount_price : ℚ
deriving DecidableEq

/-- `WalletConsumeResponse` of src/instances/models.py. -/
structure WalletConsumeResponse where
  order_list : List WalletConsume
deriving DecidableEq

/-- Deserialize one `WalletConsume` record from a wire object. -/
def parseWalletConsume (fields : List (String × JValue)) :
    Except String WalletConsume :=
  do
    let oid ← asStr (← getField fields "orderId" "order_id")
    let dt ← asInt (← getField fields "date" "date")
    let aid ← asStr (← getField fields "appId" "app_id")
    let cc ← asQ (← getField fields "consumCash" "consum_cash")
    let vdc ← asQ (← getField fields "voucherDeductCash" "voucher_deduct_cash")
    let apc ← asQ (← getField fields "actualPayCash" "actual_pay_cash")
    let bt ← asInt (← getField fields "businessType" "business_type")
    let blt ← asInt (← getField fields "billType" "bill_type")
    let rt ← asInt (← getField fields "runtime" "runtime")
    let ev ← asStr (← getField fields "event" "event")
    let tdp ← asQ (← getField fields "totalDiscountPrice" "total_discount_price")
    Except.ok { order_id := oid, date := dt, app_id := aid, consum_cash := cc,
                voucher_deduct_cash := vdc, actual_pay_cash := apc,
                business_type := bt, bill_type := blt, runtime := rt,
                event := ev, total_discount_price := tdp }

/-- A `WalletConsume` record must arrive as a wire object. -/
def parseWalletConsumeItem (j : JValue) : Except String WalletConsume :=
  match j with
  | JValue.jobj fields => parseWalletConsume fields
  | _ => Except.error "value is not a valid dict"

/-- Deserialize `WalletConsumeResponse` from envelope data. -/
def parseWalletConsumeResponse (fields : List (String × JValue)) :
    Except String WalletConsumeResponse :=
  do
    let ol ← getField fields "orderList" "order_list"
    match ol with
    | JValue.jlist items => do
      let xs ← parseList parseWalletConsumeItem items
      Except.ok { order_list := xs }
    | _ => Except.error "value is not a valid list"

/-- The shared body of every operation method: on a returned envelope,
`code == 0` deserializes the data and anything else raises
`Exception(response.msg)`; every exception, including transport ones,
is re-raised as `Exception("Failed to <op>: " + str(e))`. -/
def handleEnvelope {α : Type} (label : String)
    (parse : List (String × JValue) → Except String α) :
    ReqResult → Except String α
  | ReqResult.envelope env =>
    if env.code = 0 then
      match env.data with
      | some (JValue.jobj fields) =>
        match parse fields with
        | Except.ok v => Except.ok v
        | Except.error e => Except.error (failMsg label e)
      | _ => Except.error (failMsg label "argument after ** must be a mapping")
    else Except.error (failMsg label env.msg)
  | ReqResult.noneReturned =>
    Except.error (failMsg label "NoneType object has no attribute code")
  | ReqResult.raised e => Except.error (failMsg label (pyErrorMessage e))

/-- `OneThingAIInstance.create`: POST to api/v2/app through
`_make_request`, handle the envelope, wrap failures. -/
def createOp (delay : ℚ) (retries : Nat) (outcomes : Nat → Outcome) :
    Except String InstanceCreateResponse × Nat × List ℚ :=
  let t := makeRequest delay retries outcomes
  (handleEnvelope "create instance" parseInstanceCreateResponse t.1, t.2.1, t.2.2)

/-- The parameter names of `_make_request` that a keyword argument can
bind to. -/
def makeRequestParamNames : List String :=
  ["method", "endpoint", "args", "timeout", "max_retries"]

/-- Python keyword-argument binding: a provided keyword outside the
parameter list raises `TypeError` at the call site. -/
def bindKwargs (provided : List String) : Except String Unit :=
  match provided.filter (fun k => ! makeRequestParamNames.contains k) with
  | [] => Except.ok ()
  | k :: _ =>
    Except.error ("_make_request() got an unexpected keyword argument " ++ k)

/-- `OneThingAIInstance.get_wallet_consume`: the source calls
`self._make_request("GET", endpoint, params=query.dict())`, passing the
keyword `params`, which `_make_request` does not accept; the binding
failure is an exception inside the `try` block, so it is wrapped like
every other failure.  Only if the binding succeeded would the transport
run and the envelope be handled. -/
def getWalletConsume (delay : ℚ) (retries : Nat) (outcomes : Nat → Outcome) :
    Except String WalletConsumeResponse × Nat × List ℚ :=
  match bindKwargs ["params"] with
  | Except.error e => (Except.error (failMsg "get consumption records" e), 0, [])
  | Except.ok _ =>
    let t := makeRequest delay retries outcomes
    (handleEnvelope "get consumption records" parseWalletConsumeResponse t.1,
     t.2.1, t.2.2)

/-- Python `k.split(sep)` on a character list: `""` splits to `[""]`,
separators delimit possibly-empty words. -/
def splitOnChar (sep : Char) : List Char → List (List Char)
  | [] => [[]]
  | c :: cs =>
    let r := splitOnChar sep cs
    if c = sep then [] :: r
    else
      match r with
      | [] => [[c]]
      | w :: ws => (c :: w) :: ws

/-- Python `word.title()` restricted to the lower-case field-name words it
is applied to: upper-case the first character, lower-case the rest. -/
def toCamelWord (w : List Char) : List Char :=
  match w with
  | [] => []
  | c :: cs => c.toUpper :: cs.map Char.toLower

/-- The key conversion of `CamelCaseModel.dict`: split the field name on
underscore, title-case every word but the first, and join. -/
def toCamel (k : String) : String :=
  match splitOnChar '_' k.data with
  | [] => ""
  | w :: ws => String.mk (w ++ (ws.map toCamelWord).flatten)

/-- `CustomPort` request sub-model of src/instances/models.py. -/
structure CustomPort where
  local_port : Int
  type : String
deriving DecidableEq

/-- `InstanceConfigQuery` request model of src/instances/models.py. -/
structure InstanceConfigQuery where
  app_image_id : String
  bill_type : Int
  gpu_num : Int
  region_id : Int
  gpu_type : String
  duration : Int
  group_id : String
  custom_port : List CustomPort
deriving DecidableEq

/-- Serialization of a `CustomPort` by `CamelCaseModel.dict`. -/
def CustomPort.toDict (p : CustomPort) : List (String × JValue) :=
  [(toCamel "local_port", JValue.jint p.local_port),
   (toCamel "type", JValue.jstr p.type)]

/-- Serialization of an `InstanceConfigQuery` by `CamelCaseModel.dict`:
every snake_case field name becomes its camelCase wire key, values are
carried unchanged, nested models and list elements are converted
recursively. -/
def InstanceConfigQuery.toDict (q : InstanceConfigQuery) :
    List (String × JValue) :=
  [(toCamel "app_image_id", JValue.jstr q.app_image_id),
   (toCamel "bill_type", JValue.jint q.bill_type),
   (toCamel "gpu_num", JValue.jint q.gpu_num),
   (toCamel "region_id", JValue.jint q.region_id),
   (toCamel "gpu_type", JValue.jstr q.gpu_type),
   (toCamel "duration", JValue.jint q.duration),
   (toCamel "group_id", JValue.jstr q.group_id),
   (toCamel "custom_port",
    JValue.jlist (q.custom_port.map (fun p => JValue.jobj p.toDict)))]

/-- The declared field names of `InstanceConfigQuery`, in order. -/
def instanceConfigQueryFields : List String :=
  ["app_image_id", "bill_type", "gpu_num", "region_id", "gpu_type",
   "duration", "group_id", "custom_port"]

/-- The field-name / wire-alias pairs declared on
`InstanceCreateResponse`. -/
def instanceCreateResponseAliases : List (String × String) :=
  [("app_id", "appId"), ("group_id", "groupId")]

/-- The create-instance request of the round-trip scenario. -/
def instanceConfigExample : InstanceConfigQuery :=
  { app_image_id := "img-1", bill_type := 3, gpu_num := 1, region_id := 2,
    gpu_type := "RTX4090", duration := 0, group_id := "grp",
    custom_port := [{ local_port := 8080, type := "http" }] }

/-- `InstanceStatus` enum of onethingai_pilot/instances/models.py. -/
inductive InstanceStatus where
  | DEPLOYING
  | STARTING
  | RUNNING
  | STOPPING
  | RESETTING
  | CHANGING_IMAGE
  | RELEASING
  | STOPPED
deriving DecidableEq

/-- Wire integer of each `InstanceStatus` member. -/
def InstanceStatus.toInt : InstanceStatus → Int
  | InstanceStatus.DEPLOYING => 100
  | InstanceStatus.STARTING => 200
  | InstanceStatus.RUNNING => 300
  | InstanceStatus.STOPPING => 400
  | InstanceStatus.RESETTING => 500
  | InstanceStatus.CHANGING_IMAGE => 600
  | InstanceStatus.RELEASING => 700
  | InstanceStatus.STOPPED => 800

/-- Failure text of the `InstanceStatus(v)` conversion. -/
def instanceStatusInvalid : String := "is not a valid InstanceStatus"

/-- The `InstanceStatus(v)` conversion performed by the pre-validator
`InstanceItem.validate_status`: a defined wire value yields the named
member, anything else raises, which pydantic reports as a
`ValidationError`. -/
def InstanceStatus.fromInt (v : Int) : Except String InstanceStatus :=
  if v = 100 then Except.ok InstanceStatus.DEPLOYING
  else if v = 200 then Except.ok InstanceStatus.STARTING
  else if v = 300 then Except.ok InstanceStatus.RUNNING
  else if v = 400 then Except.ok InstanceStatus.STOPPING
  else if v = 500 then Except.ok InstanceStatus.RESETTING
  else if v = 600 then Except.ok InstanceStatus.CHANGING_IMAGE
  else if v = 700 then Except.ok InstanceStatus.RELEASING
  else if v = 800 then Except.ok InstanceStatus.STOPPED
  else Except.error instanceStatusInvalid

/-- `BillType` enum of onethingai_pilot/instances/models.py. -/
inductive BillType where
  | MONTHLY_SUBSCRIPTION
  | DAILY_SUBSCRIPTION
  | PAY_AS_YOU_GO
deriving DecidableEq

/-- Wire integer of each `BillType` member. -/
def BillType.toInt : BillType → Int
  | BillType.MONTHLY_SUBSCRIPTION => 1
  | BillType.DAILY_SUBSCRIPTION => 2
  | BillType.PAY_AS_YOU_GO => 3

/-- Failure text of the `BillType(v)` conversion. -/
def billTypeInvalid : String := "is not a valid BillType"

/-- The `BillType(v)` conversion behind the `bill_type` field of
`InstanceItem` and `OrderItem`. -/
def BillType.fromInt (v : Int) : Except String BillType :=
  if v = 1 then Except.ok BillType.MONTHLY_SUBSCRIPTION
  else if v = 2 then Except.ok BillType.DAILY_SUBSCRIPTION
  else if v = 3 then Except.ok BillType.PAY_AS_YOU_GO
  else Except.error billTypeInvalid

/-- `BusinessType` enum of onethingai_pilot/instances/models.py. -/
inductive BusinessType where
  | INSTANCE_USAGE
  | IMAGE_STORAGE
  | FILE_STORAGE
  | INSTANCE_EXPANSION
deriving DecidableEq

/-- Wire integer of each `BusinessType` member. -/
def BusinessType.toInt : BusinessType → Int
  | BusinessType.INSTANCE_USAGE => 1
  | BusinessType.IMAGE_STORAGE => 2
  | BusinessType.FILE_STORAGE => 3
  | BusinessType.INSTANCE_EXPANSION => 4

/-- Failure text of the `BusinessType(v)` conversion. -/
def businessTypeInvalid : String := "is not a valid BusinessType"

/-- The `BusinessType(v)` conversion behind `OrderItem.business_type`. -/
def BusinessType.fromInt (v : Int) : Except String BusinessType :=
  if v = 1 then Except.ok BusinessType.INSTANCE_USAGE
  else if v = 2 then Except.ok BusinessType.IMAGE_STORAGE
  else if v = 3 then Except.ok BusinessType.FILE_STORAGE
  else if v = 4 then Except.ok BusinessType.INSTANCE_EXPANSION
  else Except.error businessTypeInvalid

/-- `PrivateImageStatus` enum of onethingai_pilot/instances/models.py. -/
inductive PrivateImageStatus where
  | SAVING
  | SUCCESS
  | FAILED
deriving DecidableEq

/-- Wire integer of each `PrivateImageStatus` member. -/
def PrivateImageStatus.toInt : PrivateImageStatus → Int
  | PrivateImageStatus.SAVING => 1
  | PrivateImageStatus.SUCCESS => 4
  | PrivateImageStatus.FAILED => 5

/-- Failure text of the `PrivateImageStatus(v)` conversion. -/
def privateImageStatusInvalid : String := "is not a valid PrivateImageStatus"

/-- The `PrivateImageStatus(v)` conversion behind
`PrivateImageItem.app_image_status`. -/
def PrivateImageStatus.fromInt (v : Int) : Except String PrivateImageStatus :=
  if v = 1 then Except.ok PrivateImageStatus.SAVING
  else if v = 4 then Except.ok PrivateImageStatus.SUCCESS
  else if v = 5 then Except.ok PrivateImageStatus.FAILED
  else Except.error privateImageStatusInvalid

/-- The `status: int` field of `InstanceItem` in src/instances/models.py
(the module that actually defines `InstanceResponse`): any wire integer
is accepted and kept as a raw integer, with no enum conversion. -/
def legacyInstanceItemStatus (v : Int) : Except String Int :=
  Except.ok v

/-- `AutoscalingPolicy` state: thresholds, cooldown windows and the two
last-decision timestamps (both initialized to 0 in `__init__`). -/
structure AutoscalingPolicy where
  cpu_threshold : ℚ := 80
  memory_threshold : ℚ := 80
  scale_up_cooldown : ℚ := 300
  scale_down_cooldown : ℚ := 300
  last_scale_up_time : ℚ := 0
  last_scale_down_time : ℚ := 0
deriving DecidableEq

/-- A metrics snapshot; a missing key models `metrics.get(key, 0)`
reading 0. -/
structure Metrics where
  cpu_usage : Option ℚ := none
  memory_usage : Option ℚ := none
deriving DecidableEq

/-- `AutoscalingPolicy.should_scale_up`, with `time.time()` passed in as
`t` and the mutated object returned alongside the decision. -/
def shouldScaleUp (p : AutoscalingPolicy) (m : Metrics) (t : ℚ) :
    Bool × AutoscalingPolicy :=
  if t - p.last_scale_up_time < p.scale_up_cooldown then (false, p)
  else if p.cpu_threshold < m.cpu_usage.getD 0 ∨
      p.memory_threshold < m.memory_usage.getD 0 then
    (true, { p with last_scale_up_time := t })
  else (false, p)

/-- `AutoscalingPolicy.should_scale_down`, with `time.time()` passed in as
`t` and the mutated object returned alongside the decision. -/
def shouldScaleDown (p : AutoscalingPolicy) (m : Metrics) (t : ℚ) :
    Bool × AutoscalingPolicy :=
  if t - p.last_scale_down_time < p.scale_down_cooldown then (false, p)
  else if m.cpu_usage.getD 0 < p.cpu_threshold / 2 ∧
      m.memory_usage.getD 0 < p.memory_threshold / 2 then
    (true, { p with last_scale_down_time := t })
  else (false, p)

/-- A policy as constructed by `AutoscalingPolicy()` with its defaults. -/
def freshPolicy : AutoscalingPolicy :=
  { cpu_threshold := 80, memory_threshold := 80, scale_up_cooldown := 300,
    scale_down_cooldown := 300, last_scale_up_time := 0,
    last_scale_down_time := 0 }

/-- The scenario metrics `cpu_usage=90, memory_usage=10`. -/
def highMetrics : Metrics :=
  { cpu_usage := some 90, memory_usage := some 10 }

/-- An empty metrics snapshot: both keys missing. -/
def emptyMetrics : Metrics :=
  { cpu_usage := none, memory_usage := none }

/-- A syntactically valid consumption record as it would arrive on the
wire, used to show the envelope of the wallet-consume scenario is
well shaped. -/
def walletConsumeItemWire : List (String × JValue) :=
  [("orderId", JValue.jstr "o1"), ("date", JValue.jint 1700000000),
   ("appId", JValue.jstr "a1"), ("consumCash", JValue.jnum 1),
   ("voucherDeductCash", JValue.jnum 0), ("actualPayCash", JValue.jnum 1),
   ("businessType", JValue.jint 1), ("billType", JValue.jint 3),
   ("runtime", JValue.jint 60), ("event", JValue.jstr "e"),
   ("totalDiscountPrice", JValue.jnum 0)]

/-- The typed record `walletConsumeItemWire` deserializes to. -/
def walletConsumeItemTyped : WalletConsume :=
  { order_id := "o1", date := 1700000000, app_id := "a1", consum_cash := 1,
    voucher_deduct_cash := 0, actual_pay_cash := 1, business_type := 1,
    bill_type := 3, runtime := 60, event := "e", total_discount_price := 0 }

/-- A code-0 envelope whose data matches `WalletConsumeResponse`. -/
def walletConsumeEnvelope : Envelope :=
  { code := 0, msg := "success",
    data := some (JValue.jobj
      [("orderList", JValue.jlist [JValue.jobj walletConsumeItemWire])]) }

theorem backoff_sleeps_cons (delay : ℚ) (a f : Nat) (hf : 1 ≤ f) :
    delay * ((a + 1 : Nat) : ℚ) ::
      (List.range (f - 1)).map (fun j => delay * ((a + 1 + 1 + j : Nat) : ℚ)) =
    (List.range f).map (fun j => delay * ((a + 1 + j : Nat) : ℚ)) := by
  obtain ⟨g, rfl⟩ : ∃ g, f = g + 1 := ⟨f - 1, by omega⟩
  simp only [Nat.add_sub_cancel, List.range_succ_eq_map, List.map_cons,
    List.map_map, List.cons.injEq]
  constructor
  · norm_num
  · apply List.map_congr_left
    intro j _
    simp only [Function.comp_apply]
    congr 1
    push_cast
    ring

theorem makeRequestAux_retryable (delay : ℚ) (retries : Nat)
    (outcomes : Nat → Outcome) (hT : ∀ i, Retryable (outcomes i)) :
    ∀ fuel attempt, fuel + attempt = retries → 1 ≤ fuel →
      makeRequestAux delay retries outcomes fuel attempt =
        (ReqResult.raised (raiseOf (outcomes (retries - 1))), fuel,
          (List.range (fuel - 1)).map
            (fun j => delay * ((attempt + 1 + j : Nat) : ℚ))) := by
  intro fuel
  induction fuel with
  | zero => intro attempt _ h1; exact absurd h1 (by omega)
  | succ f ih =>
    intro attempt hsum _
    rcases hT attempt with hto | ⟨st, h500, hho⟩
    · by_cases hf : f = 0
      · subst hf
        have heq : attempt + 1 = retries := by omega
        have ha : outcomes (retries - 1) = Outcome.timeout := by
          have h : retries - 1 = attempt := by omega
          rw [h]; exact hto
        simp [makeRequestAux, hto, heq, ha, raiseOf]
      · have hne : ¬(attempt + 1 = retries) := by omega
        have hrec := ih (attempt + 1) (by omega) (by omega)
        simp only [makeRequestAux, hto, if_neg hne, hrec]
        simp only [Prod.mk.injEq, Nat.succ_sub_one, true_and]
        exact backoff_sleeps_cons delay attempt f (by omega)
    · by_cases hf : f = 0
      · subst hf
        have heq : attempt + 1 = retries := by omega
        have ha : outcomes (retries - 1) = Outcome.httpError st := by
          have h : retries - 1 = attempt := by omega
          rw [h]; exact hho
        simp [makeRequestAux, hho, heq, ha, raiseOf, if_pos h500]
      · have hne : ¬(attempt + 1 = retries) := by omega
        have hrec := ih (attempt + 1) (by omega) (by omega)
        simp only [makeRequestAux, hho, if_pos h500, if_neg hne, hrec]
        simp only [Prod.mk.injEq, Nat.succ_sub_one, true_and]
        exact backoff_sleeps_cons delay attempt f (by omega)

/-- Claim C1: for every effective retry limit N of at least 1, when every
HTTP attempt raises a timeout, `_make_request` performs attempts until
the attempt count equals N, sleeping between attempts after every
timeout except the last (N - 1 sleeps), and then surfaces the timeout
exception to the caller with the attempt count at failure equal to N. -/
theorem C1_timeout_retry_exhaustion (delay : ℚ) (N : Nat)
    (outcomes : Nat → Outcome) (hN : 1 ≤ N)
    (hT : ∀ i, outcomes i = Outcome.timeout) :
    (makeRequest delay N outcomes).1 = ReqResult.raised PyError.timeoutRaised ∧
    (makeRequest delay N outcomes).2.1 = N ∧
    (makeRequest delay N outcomes).2.2.length = N - 1 := by
  have hR : ∀ i, Retryable (outcomes i) := fun i => Or.inl (hT i)
  have h := makeRequestAux_retryable delay N outcomes hR N 0 (by omega) hN
  unfold makeRequest
  rw [h]
  refine ⟨?_, rfl, ?_⟩
  · simp [hT, raiseOf]
  · simp

/-- Witness for C1 at N = 3. -/
theorem C1_timeout_retry_exhaustion_witness :
    (makeRequest 1 3 (fun _ => Outcome.timeout)).1 =
      ReqResult.raised PyError.timeoutRaised ∧
    (makeRequest 1 3 (fun _ => Outcome.timeout)).2.1 = 3 ∧
    (makeRequest 1 3 (fun _ => Outcome.timeout)).2.2.length = 2 :=
  C1_timeout_retry_exhaustion 1 3 (fun _ => Outcome.timeout)
    (by norm_num) (fun _ => rfl)

/-- Claim C3: on a run of retryable failures (timeouts or HTTP statuses of
at least 500), the sleeps `_make_request` performs are, in order,
`retry_delay * 1, retry_delay * 2, ...`: the delay between failed
attempt k and attempt k + 1 is exactly `retry_delay * k`, linear in k. -/
theorem C3_linear_backoff (delay : ℚ) (N : Nat) (outcomes : Nat → Outcome)
    (hN : 1 ≤ N) (hT : ∀ i, Retryable (outcomes i)) :
    (makeRequest delay N outcomes).2.2 =
      (List.range (N - 1)).map (fun j => delay * ((j + 1 : Nat) : ℚ)) := by
  have h := makeRequestAux_retryable delay N outcomes hT N 0 (by omega) hN
  unfold makeRequest
  rw [h]
  apply List.map_congr_left
  intro j _
  congr 1
  push_cast
  ring

/-- Witness for C3 at N = 3, retry_delay = 2: the sleeps are 2 and 4. -/
theorem C3_linear_backoff_witness :
    (makeRequest 2 3 (fun _ => Outcome.timeout)).2.2 = [2, 4] := by
  have h := C3_linear_backoff 2 3 (fun _ => Outcome.timeout)
    (by norm_num) (fun _ => Or.inl rfl)
  rw [h]
  norm_num [List.range_succ]

/-- Claim C4: when the first attempt fails with an HTTP client-error
status (below 500) or with a non-HTTP exception, `_make_request` makes
no retry: it surfaces the error after exactly one attempt, with no
backoff sleep. -/
theorem C4_client_error_no_retry (delay : ℚ) (N : Nat)
    (outcomes : Nat → Outcome) (st : Nat) (hN : 1 ≤ N) :
    (outcomes 0 = Outcome.httpError st → st < 500 →
      makeRequest delay N outcomes =
        (ReqResult.raised (PyError.httpRaised st), 1, [])) ∧
    (outcomes 0 = Outcome.otherException →
      makeRequest delay N outcomes =
        (ReqResult.raised PyError.otherRaised, 1, [])) := by
  obtain ⟨M, rfl⟩ : ∃ M, N = M + 1 := ⟨N - 1, by omega⟩
  constructor
  · intro h0 hlt
    unfold makeRequest
    simp [makeRequestAux, h0, Nat.not_le.mpr hlt]
  · intro h0
    unfold makeRequest
    simp [makeRequestAux, h0]

/-- Witness for C4 at a simulated HTTP 404 with limit 3. -/
theorem C4_client_error_no_retry_witness :
    makeRequest 1 3 (fun _ => Outcome.httpError 404) =
      (ReqResult.raised (PyError.httpRaised 404), 1, []) :=
  (C4_client_error_no_retry 1 3 (fun _ => Outcome.httpError 404) 404
    (by norm_num)).1 rfl (by norm_num)

/-- Claim C5: when the transport returns an envelope with a non-zero
code, the operation raises an exception whose message carries the
envelope msg (wrapped as `Failed to <op>: <msg>`), returns no typed
response, and the failure is surfaced after a single HTTP call with no
backoff: a logical failure is never retried. -/
theorem C5_api_error_immediate (delay : ℚ) (N : Nat)
    (outcomes : Nat → Outcome) (env : Envelope) (hN : 1 ≤ N)
    (h0 : outcomes 0 = Outcome.success env) (hc : env.code ≠ 0) :
    createOp delay N outcomes =
      (Except.error (failMsg "create instance" env.msg), 1, []) := by
  obtain ⟨M, rfl⟩ : ∃ M, N = M + 1 := ⟨N - 1, by omega⟩
  unfold createOp makeRequest
  simp [makeRequestAux, h0, handleEnvelope, hc]

/-- Witness for C5 on an envelope with code 1 and msg "quota exceeded". -/
theorem C5_api_error_immediate_witness :
    createOp 1 3
        (fun _ => Outcome.success { code := 1, msg := "quota exceeded", data := none }) =
      (Except.error "Failed to create instance: quota exceeded", 1, []) :=
  C5_api_error_immediate 1 3 _ { code := 1, msg := "quota exceeded", data := none }
    (by norm_num) rfl (by norm_num)

/-- Claim C10: a per-call override of 0 for `timeout` or `max_retries` is
combined with the instance defaults by Python truthiness, so it is
silently ignored: the call behaves exactly as a call with no overrides,
and the effective values are the defaults. -/
theorem C10_zero_override_ignored (cfg : ClientConfig)
    (outcomes : Nat → Outcome) (d : Int) :
    makeRequestFull cfg (some 0) (some 0) outcomes =
      makeRequestFull cfg none none outcomes ∧
    pyOrInt (some 0) d = d ∧
    pyOrInt none d = d := by
  refine ⟨?_, rfl, rfl⟩
  unfold makeRequestFull
  simp [pyOrInt]

/-- Claim C2 (code evaluated at the failing input): `get_wallet_consume`
passes the keyword `params` to `_make_request`, which has no such
parameter, so even against a transport poised to return a code-0
envelope whose data matches `WalletConsumeResponse` the method raises
the wrapped `TypeError` before making any HTTP call and never returns
the typed response; the second conjunct shows the envelope data itself
was well shaped. -/
theorem C2_wallet_consume_type_error :
    getWalletConsume 1 3 (fun _ => Outcome.success walletConsumeEnvelope) =
      (Except.error "Failed to get consumption records: _make_request() got an unexpected keyword argument params",
       0, []) ∧
    parseWalletConsumeResponse
        [("orderList", JValue.jlist [JValue.jobj walletConsumeItemWire])] =
      Except.ok { order_list := [walletConsumeItemTyped] } :=
  ⟨rfl, rfl⟩

/-- Counterexample to claim C6: in src/instances/models.py the
`InstanceItem.status` field is a plain `int`, so the out-of-range wire
integer 999 deserializes successfully and is left as a raw integer, even
though 999 is not a defined `InstanceStatus` value. -/
theorem C6_legacy_status_raw_int :
    legacyInstanceItemStatus 999 = Except.ok 999 ∧
    InstanceStatus.fromInt 999 = Except.error instanceStatusInvalid :=
  ⟨rfl, rfl⟩

/-- Claim C6 as amended: for the enumerated response fields of
onethingai_pilot/instances/models.py (instance status, bill type,
business type, private-image status), every defined wire integer
converts to the named enum member and every other integer fails
validation; the legacy duplicate models in src/instances/models.py keep
these fields as raw integers instead. -/
theorem C6_enum_validation_amended :
    (∀ s : InstanceStatus, InstanceStatus.fromInt s.toInt = Except.ok s) ∧
    (∀ v : Int, v ≠ 100 → v ≠ 200 → v ≠ 300 → v ≠ 400 → v ≠ 500 →
      v ≠ 600 → v ≠ 700 → v ≠ 800 →
      InstanceStatus.fromInt v = Except.error instanceStatusInvalid) ∧
    (∀ b : BillType, BillType.fromInt b.toInt = Except.ok b) ∧
    (∀ v : Int, v ≠ 1 → v ≠ 2 → v ≠ 3 →
      BillType.fromInt v = Except.error billTypeInvalid) ∧
    (∀ b : BusinessType, BusinessType.fromInt b.toInt = Except.ok b) ∧
    (∀ v : Int, v ≠ 1 → v ≠ 2 → v ≠ 3 → v ≠ 4 →
      BusinessType.fromInt v = Except.error businessTypeInvalid) ∧
    (∀ s : PrivateImageStatus,
      PrivateImageStatus.fromInt s.toInt = Except.ok s) ∧
    (∀ v : Int, v ≠ 1 → v ≠ 4 → v ≠ 5 →
      PrivateImageStatus.fromInt v = Except.error privateImageStatusInvalid) := by
  refine ⟨?_, ?_, ?_, ?_, ?_, ?_, ?_, ?_⟩
  · intro s; cases s <;> rfl
  · intro v h1 h2 h3 h4 h5 h6 h7 h8
    simp [InstanceStatus.fromInt, h1, h2, h3, h4, h5, h6, h7, h8]
  · intro b; cases b <;> rfl
  · intro v h1 h2 h3
    simp [BillType.fromInt, h1, h2, h3]
  · intro b; cases b <;> rfl
  · intro v h1 h2 h3 h4
    simp [BusinessType.fromInt, h1, h2, h3, h4]
  · intro s; cases s <;> rfl
  · intro v h1 h2 h3
    simp [PrivateImageStatus.fromInt, h1, h2, h3]

/-- Witness for the amended C6 at concrete out-of-range wire values. -/
theorem C6_enum_validation_amended_witness :
    InstanceStatus.fromInt 999 = Except.error instanceStatusInvalid ∧
    BillType.fromInt 9 = Except.error billTypeInvalid ∧
    BusinessType.fromInt 9 = Except.error businessTypeInvalid ∧
    PrivateImageStatus.fromInt 2 = Except.error privateImageStatusInvalid :=
  ⟨C6_enum_validation_amended.2.1 999 (by norm_num) (by norm_num) (by norm_num)
      (by norm_num) (by norm_num) (by norm_num) (by norm_num) (by norm_num),
   C6_enum_validation_amended.2.2.2.1 9 (by norm_num) (by norm_num) (by norm_num),
   C6_enum_validation_amended.2.2.2.2.2.1 9 (by norm_num) (by norm_num)
      (by norm_num) (by norm_num),
   C6_enum_validation_amended.2.2.2.2.2.2.2 2 (by norm_num) (by norm_num)
      (by norm_num)⟩

/-- Claim C7: serializing a create-instance request with
`app_image_id = "img-1"` produces the wire key `appImageId` carrying
"img-1" unchanged; deserializing a response with `appId = "x"` yields
`app_id = "x"`; and the snake-to-camel key mapping is bijective per
field: the fields of `InstanceConfigQuery` map to pairwise distinct
camelCase keys, and the declared aliases of `InstanceCreateResponse` are
exactly the camelCase images of their field names. -/
theorem C7_camel_case_roundtrip :
    (instanceConfigExample.toDict).lookup "appImageId" =
      some (JValue.jstr "img-1") ∧
    parseInstanceCreateResponse
        [("appId", JValue.jstr "x"), ("groupId", JValue.jstr "g")] =
      Except.ok { app_id := "x", group_id := "g" } ∧
    instanceConfigQueryFields.map toCamel =
      ["appImageId", "billType", "gpuNum", "regionId", "gpuType",
       "duration", "groupId", "customPort"] ∧
    (instanceConfigQueryFields.map toCamel).Nodup ∧
    instanceCreateResponseAliases.map (fun kv => toCamel kv.1) =
      instanceCreateResponseAliases.map (fun kv => kv.2) := by
  refine ⟨rfl, rfl, rfl, ?_, rfl⟩
  have h : instanceConfigQueryFields.map toCamel =
      ["appImageId", "billType", "gpuNum", "regionId", "gpuType",
       "duration", "groupId", "customPort"] := rfl
  rw [h]
  decide

/-- Claim C8: `should_scale_up` returns false inside the scale-up
cooldown window; outside it, it returns true exactly when cpu usage
exceeds the cpu threshold or memory usage exceeds the memory threshold,
resetting the scale-up timer to the current time on a true decision.
With a fresh evaluator (timer 0, so ready at any wall-clock time past
the cooldown), metrics cpu 90 / memory 10 against threshold 80 give true
on the first call, false on an immediate identical second call, and true
again once the cooldown has elapsed. -/
theorem C8_scale_up_policy (p : AutoscalingPolicy) (m : Metrics) (t : ℚ) :
    (t - p.last_scale_up_time < p.scale_up_cooldown →
      shouldScaleUp p m t = (false, p)) ∧
    (p.scale_up_cooldown ≤ t - p.last_scale_up_time →
      shouldScaleUp p m t =
        if p.cpu_threshold < m.cpu_usage.getD 0 ∨
            p.memory_threshold < m.memory_usage.getD 0 then
          (true, { p with last_scale_up_time := t })
        else (false, p)) ∧
    (shouldScaleUp freshPolicy highMetrics 1000).1 = true ∧
    (shouldScaleUp (shouldScaleUp freshPolicy highMetrics 1000).2
      highMetrics 1000).1 = false ∧
    (shouldScaleUp (shouldScaleUp freshPolicy highMetrics 1000).2
      highMetrics 1300).1 = true := by
  refine ⟨?_, ?_, ?_, ?_, ?_⟩
  · intro h; unfold shouldScaleUp; rw [if_pos h]
  · intro h; unfold shouldScaleUp; rw [if_neg (not_lt.mpr h)]
  · norm_num [shouldScaleUp, freshPolicy, highMetrics]
  · norm_num [shouldScaleUp, freshPolicy, highMetrics]
  · norm_num [shouldScaleUp, freshPolicy, highMetrics]

/-- Witness for C8: a ready evaluator at time 500 scales up and resets
its timer. -/
theorem C8_scale_up_policy_witness :
    shouldScaleUp freshPolicy highMetrics 500 =
      (true, { freshPolicy with last_scale_up_time := 500 }) := by
  have h := (C8_scale_up_policy freshPolicy highMetrics 500).2.1
    (by norm_num [freshPolicy])
  rw [h, if_pos (by norm_num [freshPolicy, highMetrics])]

/-- Claim C9: `should_scale_down` returns false inside the scale-down
cooldown window; outside it, it returns true exactly when cpu usage is
below half the cpu threshold and memory usage below half the memory
threshold, resetting the scale-down timer on a true decision; a metric
key missing from the snapshot is read as 0, so with positive thresholds
an empty snapshot outside the cooldown makes it return true. -/
theorem C9_scale_down_policy (p : AutoscalingPolicy) (m : Metrics) (t : ℚ) :
    (t - p.last_scale_down_time < p.scale_down_cooldown →
      shouldScaleDown p m t = (false, p)) ∧
    (p.scale_down_cooldown ≤ t - p.last_scale_down_time →
      shouldScaleDown p m t =
        if m.cpu_usage.getD 0 < p.cpu_threshold / 2 ∧
            m.memory_usage.getD 0 < p.memory_threshold / 2 then
          (true, { p with last_scale_down_time := t })
        else (false, p)) ∧
    (0 < p.cpu_threshold → 0 < p.memory_threshold →
      p.scale_down_cooldown ≤ t - p.last_scale_down_time →
      m.cpu_usage = none → m.memory_usage = none →
      shouldScaleDown p m t = (true, { p with last_scale_down_time := t })) := by
  refine ⟨?_, ?_, ?_⟩
  · intro h; unfold shouldScaleDown; rw [if_pos h]
  · intro h; unfold shouldScaleDown; rw [if_neg (not_lt.mpr h)]
  · intro hc hm h hcn hmn
    unfold shouldScaleDown
    rw [if_neg (not_lt.mpr h), if_pos]
    rw [hcn, hmn]
    exact ⟨half_pos hc, half_pos hm⟩

/-- Witness for C9: a fresh evaluator at time 1000 with an empty metrics
snapshot decides to scale down and resets its timer. -/
theorem C9_scale_down_policy_witness :
    shouldScaleDown freshPolicy emptyMetrics 1000 =
      (true, { freshPolicy with last_scale_down_time := 1000 }) :=
  (C9_scale_down_policy freshPolicy emptyMetrics 1000).2.2
    (by norm_num [freshPolicy]) (by norm_num [freshPolicy])
    (by norm_num [freshPolicy]) rfl rfl
